import Mathlib

/-!
Verification development for the KAT comms server (src/server.py).

The file shallowly embeds the parts of `server.py` that the specification's
claims are about: the ICE candidate parser (`parse_ice_candidate`,
lines 68-108), the steady-state message loop of `_admit` (lines 207-213),
the handshake sequence of `_admit` (lines 150-213), and the room-state
effects of the admin and user branches of `ws_endpoint` (lines 231-290).

JSON values are modelled by `JVal`; Python dictionary access is modelled by
`pyGet` (the method `get`, returning None when the key is absent and raising
AttributeError on a non-dict) and `pyIndex` (subscription, raising KeyError
when the key is absent).  Fallible Python code is embedded in
`Except String`, the error string naming the Python exception class raised.

External collaborators (aiortc, Twilio, the websocket transport) are out of
scope of the source and are abstracted: `createAnswer`/`setLocalDescription`
are a function parameter `ans`, and inbound traffic is a list of already
decoded JSON messages.
-/

namespace KAT

mutual

/-- A JSON value, as delivered by `await ws.receive_json()`.  JSON arrays are
omitted: every embedded operation treats them exactly like the other
non-object values (its catch-all branch), so one non-object constructor of
each primitive kind suffices. -/
inductive JVal where
  | str (s : String)
  | num (n : Int)
  | boolean (b : Bool)
  | null
  | obj (fields : JFields)
deriving DecidableEq, Repr

/-- The field list of a JSON object. -/
inductive JFields where
  | nil
  | cons (key : String) (val : JVal) (rest : JFields)
deriving DecidableEq, Repr

end

/-- Build a JSON object field list from a Lean list of pairs. -/
def JFields.ofList : List (String × JVal) → JFields
  | [] => JFields.nil
  | (k, v) :: rest => JFields.cons k v (JFields.ofList rest)

/-- Build a JSON object from a Lean list of pairs. -/
def jobj (l : List (String × JVal)) : JVal :=
  JVal.obj (JFields.ofList l)

/-- First binding of a key in a JSON object's field list. -/
def lookupField : JFields → String → Option JVal
  | JFields.nil, _ => none
  | JFields.cons k v rest, key => if k = key then some v else lookupField rest key

/-- Python `msg.get(key)`: `None` when absent, AttributeError on a non-dict. -/
def pyGet (m : JVal) (key : String) : Except String (Option JVal) :=
  match m with
  | JVal.obj fields => Except.ok (lookupField fields key)
  | _ => Except.error "AttributeError"

/-- Python `msg[key]`: KeyError when absent, TypeError on a non-dict. -/
def pyIndex (m : JVal) (key : String) : Except String JVal :=
  match m with
  | JVal.obj fields =>
    match lookupField fields key with
    | some v => Except.ok v
    | none => Except.error "KeyError"
  | _ => Except.error "TypeError"

/-- Python list subscription `l[i]`, raising IndexError out of range. -/
def pyListGet {α : Type} (l : List α) (i : Nat) : Except String α :=
  match l.get? i with
  | some x => Except.ok x
  | none => Except.error "IndexError"

/-- Strip leading and trailing whitespace from a character list. -/
def trimChars (l : List Char) : List Char :=
  ((l.dropWhile Char.isWhitespace).reverse.dropWhile Char.isWhitespace).reverse

/-- Python `s.strip()`. -/
def pyStrip (s : String) : String :=
  String.mk (trimChars s.data)

/-- Split a character list at every occurrence of a separator character,
keeping empty pieces, as Python `s.split(sep)` does. -/
def splitCharAux (sep : Char) : List Char → List Char → List String
  | [], acc => [String.mk acc.reverse]
  | c :: rest, acc =>
    if c = sep then String.mk acc.reverse :: splitCharAux sep rest []
    else splitCharAux sep rest (c :: acc)

/-- Python `s.split(sep)` for a one-character separator. -/
def pySplitChar (s : String) (sep : Char) : List String :=
  splitCharAux sep s.data []

/-- Python `part.split("=")[1]` as used throughout `parse_ice_candidate`. -/
def pyEqField (part : String) : Except String String :=
  pyListGet (pySplitChar part '=') 1

/-- Accumulate a decimal digit string; `none` on a non-digit. -/
def digitsToNatGo : List Char → Nat → Option Nat
  | [], acc => some acc
  | c :: rest, acc =>
    if c.isDigit then digitsToNatGo rest (acc * 10 + (c.toNat - 48)) else none

/-- Value of a non-empty all-digit character list. -/
def digitsToNat : List Char → Option Nat
  | [] => none
  | l => digitsToNatGo l 0

/-- Python `int(s)` on a string: surrounding whitespace and an optional sign
are accepted, anything else raises ValueError. -/
def pyIntParse (s : String) : Except String Int :=
  let l := trimChars s.data
  let core : Option Int :=
    match l with
    | '-' :: rest => (digitsToNat rest).map (fun n => -(n : Int))
    | '+' :: rest => (digitsToNat rest).map (fun n => (n : Int))
    | _ => (digitsToNat l).map (fun n => (n : Int))
  match core with
  | some n => Except.ok n
  | none => Except.error "ValueError"

/-- Split a character list on whitespace runs, dropping empty pieces, as
Python `s.split()` with no separator does. -/
def splitWsAux : List Char → List Char → List String
  | [], acc => if acc.isEmpty then [] else [String.mk acc.reverse]
  | c :: rest, acc =>
    if c.isWhitespace then
      if acc.isEmpty then splitWsAux rest []
      else String.mk acc.reverse :: splitWsAux rest []
    else splitWsAux rest (c :: acc)

/-- Python `line.split()`: split on whitespace runs, dropping empty pieces. -/
def pySplitWs (s : String) : List String :=
  splitWsAux s.data []

/-- The aiortc candidate record as constructed by `parse_ice_candidate`
(src/server.py lines 95-108).  `sdpMid` and `sdpMLineIndex` hold whatever
JSON value the loop later assigns from `msg.get(...)`. -/
structure RTCIceCandidate where
  component : Int
  foundation : String
  priority : Int
  ip : String
  port : Int
  protocol : String
  typ : String
  relatedAddress : Option String
  relatedPort : Option Int
  tcpType : Option String
  sdpMid : Option JVal
  sdpMLineIndex : Option JVal
deriving DecidableEq, Repr

/-- The `while i < len(parts)` tail loop of `parse_ice_candidate`
(src/server.py lines 84-93), collecting raddr, rport and tcptype.  The
index that advances by one or two per step is embedded as recursion on the
remaining suffix of `parts`; `parts[i + 1]` past the end is the IndexError,
and `int(parts[i + 1])` for rport can raise ValueError. -/
def parseTail : List String → Option String → Option Int → Option String →
    Except String (Option String × Option Int × Option String)
  | [], ra, rp, tt => Except.ok (ra, rp, tt)
  | tok :: rest, ra, rp, tt =>
    if tok = "raddr" then
      match rest with
      | [] => Except.error "IndexError"
      | v :: rest2 => parseTail rest2 (some v) rp tt
    else if tok = "rport" then
      match rest with
      | [] => Except.error "IndexError"
      | v :: rest2 =>
        match pyIntParse v with
        | Except.error e => Except.error e
        | Except.ok n => parseTail rest2 ra (some n) tt
    else if tok = "tcptype" then
      match rest with
      | [] => Except.error "IndexError"
      | v :: rest2 => parseTail rest2 ra rp (some v)
    else parseTail rest ra rp tt

/-- Embedding of `parse_ice_candidate` (src/server.py lines 68-108).
Each `parts[i].split("=")[1]` access can raise IndexError and each `int(...)`
can raise ValueError; these surface as `Except.error`. -/
def parse_ice_candidate (line : String) : Except String RTCIceCandidate := do
  let parts := pySplitWs (pyStrip line)
  let component ← pyIntParse (← pyEqField (← pyListGet parts 1))
  let foundation ← pyEqField (← pyListGet parts 2)
  let priority ← pyIntParse (← pyEqField (← pyListGet parts 3))
  let ip ← pyEqField (← pyListGet parts 4)
  let port ← pyIntParse (← pyEqField (← pyListGet parts 5))
  let typ ← pyEqField (← pyListGet parts 6)
  let protocol ← pyEqField (← pyListGet parts 7)
  let tail ← parseTail (parts.drop 8) none none none
  pure { component := component, foundation := foundation, priority := priority,
         ip := ip, port := port, protocol := protocol, typ := typ,
         relatedAddress := tail.1, relatedPort := tail.2.1,
         tcpType := tail.2.2, sdpMid := none, sdpMLineIndex := none }

/-- One iteration body of the steady-state loop of `_admit`
(src/server.py lines 208-213): a message whose `type` is the string
"candidate" has its `candidate` line parsed and its `sdpMid` and
`sdpMLineIndex` attached; any other message is ignored (`Except.ok none`).
An uncaught Python exception is `Except.error`. -/
def handleMessage (msg : JVal) : Except String (Option RTCIceCandidate) :=
  match pyGet msg "type" with
  | Except.error e => Except.error e
  | Except.ok t =>
    if t = some (JVal.str "candidate") then
      match pyIndex msg "candidate" with
      | Except.error e => Except.error e
      | Except.ok (JVal.str line) =>
        match parse_ice_candidate line with
        | Except.error e => Except.error e
        | Except.ok cand =>
          match pyGet msg "sdpMid", pyGet msg "sdpMLineIndex" with
          | Except.ok mid, Except.ok mli =>
            Except.ok (some { cand with sdpMid := mid, sdpMLineIndex := mli })
          | Except.error e, _ => Except.error e
          | _, Except.error e => Except.error e
      | Except.ok _ => Except.error "AttributeError"
    else Except.ok none

/-- Messages the server sends on a peer's or admin's socket. -/
inductive SMsg where
  | waiting
  | newWaiting (peerId : Int)
  | admitted (peerId : Int)
  | readyForOffer
  | answer (sdp : String)
deriving DecidableEq, Repr

/-- Observable events of a single `_admit` session, in program order. -/
inductive Ev where
  | send (m : SMsg)
  | createPC
  | recvOffer
  | applyCand (c : RTCIceCandidate)
  | err (e : String)
deriving DecidableEq, Repr

/-- Events produced by the steady-state loop (src/server.py lines 207-213)
on the suffix of the inbound message list: each accepted candidate is applied
via `pc.addIceCandidate`; ignored messages produce nothing; an uncaught
exception ends the loop (and the session, since only WebSocketDisconnect is
handled). An exhausted list models the transport disconnecting. -/
def loopEvents : List JVal → List Ev
  | [] => []
  | m :: rest =>
    match handleMessage m with
    | Except.error e => [Ev.err e]
    | Except.ok none => loopEvents rest
    | Except.ok (some c) => Ev.applyCand c :: loopEvents rest

/-- Event trace of `_admit` for one peer (src/server.py lines 150-213):
send admitted, build the RTCPeerConnection, send ready_for_offer, then take
the next inbound message as the offer (`offer = await ws.receive_json()`).
Accessing `offer["sdp"]` or `offer["type"]` raises KeyError when absent;
otherwise the external `createAnswer`/`setLocalDescription` pipeline `ans`
produces the local description whose sdp is sent verbatim
(`pc.localDescription.sdp`, line 204), followed by the steady-state loop. -/
def admitEvents (pid : Int) (inbox : List JVal) (ans : JVal → String) : List Ev :=
  Ev.send (SMsg.admitted pid) :: Ev.createPC :: Ev.send SMsg.readyForOffer ::
    match inbox with
    | [] => []
    | offer :: rest =>
      match pyIndex offer "sdp" with
      | Except.error e => [Ev.err e]
      | Except.ok sdpV =>
        match pyIndex offer "type" with
        | Except.error e => [Ev.err e]
        | Except.ok _ =>
          Ev.recvOffer :: Ev.send (SMsg.answer (ans sdpV)) :: loopEvents rest

/-- Membership sets of one room, as in `rooms[room_id]`
(src/server.py line 235): `admins` and `waiting` are Python sets of
websockets and `peers` is the dict mapping websockets to their
RTCPeerConnection.  Websockets are identified by their `id(ws)` integer,
which is how the protocol itself names them, so each collection is the
list of ids it contains, in insertion order, without duplicates. -/
structure RoomState where
  admins : List Int
  waiting : List Int
  peers : List Int
deriving DecidableEq, Repr

/-- Python `set.add`: no-op when the element is present. -/
def pySetAdd (l : List Int) (x : Int) : List Int :=
  if x ∈ l then l else l ++ [x]

/-- Python `set.discard`: remove the element when present. -/
def pySetDiscard (l : List Int) (x : Int) : List Int :=
  l.erase x

/-- The room with no members, as created by `rooms.setdefault`
(src/server.py lines 235-239). -/
def roomEmpty : RoomState :=
  { admins := [], waiting := [], peers := [] }

/-- The synchronous admission effect of `_admit` on room state together with
its handshake messages to the target (src/server.py lines 150-193):
discard the target from `waiting`, send it admitted, register its fresh
RTCPeerConnection under `peers`, send it ready_for_offer. -/
def admitSync (s : RoomState) (pid : Int) : RoomState × List SMsg :=
  ({ s with waiting := pySetDiscard s.waiting pid,
            peers := pySetAdd s.peers pid },
   [SMsg.admitted pid, SMsg.readyForOffer])

/-- Handling of one admin `admit` command (src/server.py lines 260-269):
look for a waiting peer whose id equals the requested peer_id
(`next((p for p in state["waiting"] if id(p) == peer_id), None)`) and run
`_admit` on it when found; otherwise do nothing. -/
def adminAdmitCmd (s : RoomState) (peer_id : Int) : RoomState × List SMsg :=
  if peer_id ∈ s.waiting then admitSync s peer_id else (s, [])

/-- The join part of the admin branch of `ws_endpoint`
(src/server.py lines 241-251): add the admin to `admins`, then send it one
new_waiting notification per peer currently in `waiting`, in iteration
order, before the command loop starts.  The returned messages are the ones
delivered to this admin. -/
def adminJoin (s : RoomState) (aid : Int) : RoomState × List SMsg :=
  ({ s with admins := pySetAdd s.admins aid },
   s.waiting.map (fun p => SMsg.newWaiting p))

/-- The admin command loop (src/server.py lines 254-269) over a list of
inbound JSON messages.  Only messages whose `type` is the string "admit"
do anything; the peer_id is compared against the ids in `waiting` by
Python `==`, so only an integer-valued peer_id can match.  A message on
which `msg.get` raises (a non-object) ends the loop, as the exception is
not a WebSocketDisconnect.  Returned messages are those the spawned
`_admit` calls send to the admitted peers. -/
def adminLoop (s : RoomState) : List JVal → RoomState × List SMsg
  | [] => (s, [])
  | m :: rest =>
    match pyGet m "type" with
    | Except.error _ => (s, [])
    | Except.ok t =>
      if t = some (JVal.str "admit") then
        match pyGet m "peer_id" with
        | Except.error _ => (s, [])
        | Except.ok pidV =>
          let r := match pidV with
                   | some (JVal.num pid) => adminAdmitCmd s pid
                   | _ => (s, [])
          let r2 := adminLoop r.1 rest
          (r2.1, r.2 ++ r2.2)
      else adminLoop s rest

/-- The whole admin branch of `ws_endpoint` (src/server.py lines 241-269):
join, then the command loop.  The messages are the join notifications to
the admin followed by everything the loop causes to be sent. -/
def adminBranch (s : RoomState) (aid : Int) (cmds : List JVal) :
    RoomState × List SMsg :=
  let j := adminJoin s aid
  let l := adminLoop j.1 cmds
  (l.1, j.2 ++ l.2)

/-- The user branch of `ws_endpoint` (src/server.py lines 276-290): add the
user to `waiting`, send it the waiting notification, notify the admins
(sends on the admin sockets, not in this user's trace), and then
immediately `await _admit(ws, room_id)` on the same connection, which
discards it from `waiting` again, registers its RTCPeerConnection and runs
the handshake.  Returns the room state after the synchronous part of
`_admit` and the event trace on the user's socket. -/
def userBranch (s : RoomState) (uid : Int) (inbox : List JVal)
    (ans : JVal → String) : RoomState × List Ev :=
  let s1 := { s with waiting := pySetAdd s.waiting uid }
  let s2 := { s1 with waiting := pySetDiscard s1.waiting uid,
                      peers := pySetAdd s1.peers uid }
  (s2, Ev.send SMsg.waiting :: admitEvents uid inbox ans)

/-- Split a character list at every CRLF pair, keeping empty pieces. -/
def splitCRLFAux : List Char → List Char → List String
  | [], acc => [String.mk acc.reverse]
  | '\r' :: '\n' :: rest, acc => String.mk acc.reverse :: splitCRLFAux rest []
  | c :: rest, acc => splitCRLFAux rest (c :: acc)

/-- Rejoin lines with CRLF terminators. -/
def joinCRLF : List String → String
  | [] => ""
  | [l] => l
  | l :: rest => l ++ "\r\n" ++ joinCRLF rest

/-- Whether a string starts with the given other string. -/
def strStarts (s p : String) : Bool :=
  p.data.isPrefixOf s.data

/-- Transcribed from the specification, section 4.6, for comparison with the
code's answer path: scan the SDP line-wise and, after each line beginning
with m=audio, append the lines a=sendrecv, a=ptime:20 and a=maxptime:20,
with CRLF terminators. -/
def specPatchSdp (sdp : String) : String :=
  joinCRLF ((splitCRLFAux sdp.data []).map (fun line =>
    if strStarts line "m=audio" then
      line ++ "\r\na=sendrecv\r\na=ptime:20\r\na=maxptime:20"
    else line))

/-- A well-formed offer message. -/
def offerEx : JVal :=
  jobj [("type", JVal.str "offer"), ("sdp", JVal.str "v=0")]

/-- A candidate line in the key=value shape `parse_ice_candidate` expects. -/
def goodLine : String :=
  "candidate c=1 f=abc p=100 ip=1.2.3.4 port=3478 typ=host proto=udp"

/-- The parse of `goodLine`. -/
def goodCand : RTCIceCandidate :=
  { component := 1, foundation := "abc", priority := 100, ip := "1.2.3.4",
    port := 3478, protocol := "udp", typ := "host", relatedAddress := none,
    relatedPort := none, tcpType := none, sdpMid := none,
    sdpMLineIndex := none }

/-- A trickle candidate in the flat shape the code accepts. -/
def candEx : JVal :=
  jobj [("type", JVal.str "candidate"), ("candidate", JVal.str goodLine),
        ("sdpMid", JVal.str "0"), ("sdpMLineIndex", JVal.num 0)]

/-- A trickle candidate in the nested shape the specification's grammar
names: type "ice" with an object-valued candidate. -/
def iceEx : JVal :=
  jobj [("type", JVal.str "ice"),
        ("candidate", jobj [("candidate", JVal.str goodLine),
                            ("sdpMid", JVal.str "0"),
                            ("sdpMLineIndex", JVal.num 0)])]

/-- A chat message as the specification's dispatch table describes it. -/
def chatEx : JVal :=
  jobj [("type", JVal.str "chat"), ("from", JVal.str "u1"),
        ("text", JVal.str "hi")]

/-- A candidate message whose candidate line has none of the expected
fields. -/
def bananaEx : JVal :=
  jobj [("type", JVal.str "candidate"), ("candidate", JVal.str "banana")]

/-- An answer SDP containing an audio media section. -/
def sdpEx : String :=
  "v=0\r\nm=audio 9 UDP/TLS/RTP/SAVPF 111\r\na=mid:0\r\n"

/-- Elements of the steady-state loop trace are only applied candidates or a
terminating error: the loop never sends a message on the socket. -/
theorem loopEvents_mem (l : List JVal) (e : Ev) (he : e ∈ loopEvents l) :
    (∃ c, e = Ev.applyCand c) ∨ (∃ s, e = Ev.err s) := by
  induction l with
  | nil => simp [loopEvents] at he
  | cons m rest ih =>
    simp only [loopEvents] at he
    cases hm : handleMessage m with
    | error e0 =>
      rw [hm] at he
      simp at he
      exact Or.inr ⟨e0, he⟩
    | ok oc =>
      cases oc with
      | none =>
        rw [hm] at he
        exact ih he
      | some c =>
        rw [hm] at he
        rcases List.mem_cons.mp he with h1 | h2
        · exact Or.inl ⟨c, h1⟩
        · exact ih h2

/-- Claim C1 (code bug): a connection whose role is user is admitted with no
admin action at all.  In a room with no admins, with no admit command ever
issued, the user branch still sends the admitted message on the user's
socket and registers the user's WebRTC handle in the admitted mapping,
because line 290 of src/server.py runs `_admit` on the user directly. -/
theorem C1_user_admitted_without_admin :
    Ev.send (SMsg.admitted 7) ∈ (userBranch roomEmpty 7 [] (fun _ => "")).2 ∧
    (userBranch roomEmpty 7 [] (fun _ => "")).1.peers = [7] ∧
    roomEmpty.admins = [] := by
  refine ⟨?_, rfl, rfl⟩
  simp [userBranch, admitEvents]

/-- Claim C2, counterexample: after a solo admin joins the empty room, the
server has sent no message at all (in particular no admitted and no
ready_for_offer), and the admitted mapping is empty rather than containing
the admin. -/
theorem C2_counterexample :
    (adminBranch roomEmpty 1 []).2 = [] ∧
    (adminBranch roomEmpty 1 []).1 =
      { admins := [1], waiting := [], peers := [] } :=
  ⟨rfl, rfl⟩

/-- Claim C2 as amended: an admin is registered purely as a controller: the
join adds it to the admins set and sends it only new_waiting notifications;
it receives no admitted and no ready_for_offer, and no WebRTC handle is
created for it (the admitted mapping is unchanged). -/
theorem C2_admin_join_controller_only (s : RoomState) (aid : Int) :
    SMsg.admitted aid ∉ (adminJoin s aid).2 ∧
    SMsg.readyForOffer ∉ (adminJoin s aid).2 ∧
    (adminJoin s aid).1.peers = s.peers ∧
    (adminJoin s aid).1.admins = pySetAdd s.admins aid := by
  refine ⟨?_, ?_, rfl, rfl⟩ <;> simp [adminJoin]

/-- Witness for C2's amended theorem at a concrete room. -/
theorem C2_admin_join_controller_only_witness :
    SMsg.admitted 1 ∉ (adminJoin { admins := [], waiting := [9], peers := [] } 1).2 ∧
    SMsg.readyForOffer ∉ (adminJoin { admins := [], waiting := [9], peers := [] } 1).2 ∧
    (adminJoin { admins := [], waiting := [9], peers := [] } 1).1.peers = [] ∧
    (adminJoin { admins := [], waiting := [9], peers := [] } 1).1.admins = pySetAdd [] 1 :=
  C2_admin_join_controller_only { admins := [], waiting := [9], peers := [] } 1

/-- Claim C3, counterexample: with a createAnswer result that contains an
m=audio section, the answer message carries that SDP verbatim, not the
patched SDP the claim describes (and the patch would have changed it). -/
theorem C3_counterexample :
    admitEvents 1 [offerEx] (fun _ => sdpEx) =
      [Ev.send (SMsg.admitted 1), Ev.createPC, Ev.send SMsg.readyForOffer,
       Ev.recvOffer, Ev.send (SMsg.answer sdpEx)] ∧
    specPatchSdp sdpEx ≠ sdpEx :=
  ⟨rfl, by decide⟩

/-- Claim C3 as amended: the server performs no SDP patching at all: the
answer message carries exactly the SDP produced by the external
createAnswer/setLocalDescription pipeline, with no lines appended. -/
theorem C3_answer_sent_verbatim (pid : Int) (offer : JVal) (rest : List JVal)
    (ans : JVal → String) (sdpV tV : JVal)
    (h1 : pyIndex offer "sdp" = Except.ok sdpV)
    (h2 : pyIndex offer "type" = Except.ok tV) :
    admitEvents pid (offer :: rest) ans =
      [Ev.send (SMsg.admitted pid), Ev.createPC, Ev.send SMsg.readyForOffer,
       Ev.recvOffer, Ev.send (SMsg.answer (ans sdpV))] ++ loopEvents rest := by
  simp [admitEvents, h1, h2]

/-- Witness for C3's amended theorem at a concrete offer. -/
theorem C3_answer_sent_verbatim_witness :
    admitEvents 1 [offerEx] (fun _ => "X") =
      [Ev.send (SMsg.admitted 1), Ev.createPC, Ev.send SMsg.readyForOffer,
       Ev.recvOffer, Ev.send (SMsg.answer "X")] ++ loopEvents [] :=
  C3_answer_sent_verbatim 1 offerEx [] (fun _ => "X") (JVal.str "v=0")
    (JVal.str "offer") rfl rfl

/-- Claim C4, counterexample: a chat message from an admitted peer is not
broadcast: the steady-state loop ignores it and produces no event, so no
recipient receives anything. -/
theorem C4_counterexample :
    handleMessage chatEx = Except.ok none ∧ loopEvents [chatEx] = [] :=
  ⟨rfl, rfl⟩

/-- Claim C4 as amended: chat is not a supported message type: a message
tagged "chat" matches no branch of the steady-state loop, is silently
ignored, and the loop continues with no broadcast of any kind. -/
theorem C4_chat_ignored (frm txt : String) (rest : List JVal) :
    handleMessage (jobj [("type", JVal.str "chat"), ("from", JVal.str frm),
        ("text", JVal.str txt)]) = Except.ok none ∧
    loopEvents (jobj [("type", JVal.str "chat"), ("from", JVal.str frm),
        ("text", JVal.str txt)] :: rest) = loopEvents rest :=
  ⟨rfl, rfl⟩

/-- Claim C5, counterexample: a trickle candidate that arrives before the
offer is consumed as the offer: accessing its missing sdp key raises
KeyError, the session trace ends, the candidate is never applied and the
real offer is never read. -/
theorem C5_counterexample :
    admitEvents 1 [candEx, offerEx] (fun _ => "A") =
      [Ev.send (SMsg.admitted 1), Ev.createPC, Ev.send SMsg.readyForOffer,
       Ev.err "KeyError"] :=
  rfl

/-- Claim C5 as amended: there is no candidate queue: whatever message
arrives first after ready_for_offer is treated as the offer; if it has no
sdp key (as a trickle candidate does not), the uncaught KeyError terminates
the session and every later message, the real offer included, is lost. -/
theorem C5_no_early_candidate_queue (pid : Int) (ans : JVal → String)
    (early : JVal) (rest : List JVal) (e : String)
    (h : pyIndex early "sdp" = Except.error e) :
    admitEvents pid (early :: rest) ans =
      [Ev.send (SMsg.admitted pid), Ev.createPC, Ev.send SMsg.readyForOffer,
       Ev.err e] := by
  simp [admitEvents, h]

/-- Witness for C5's amended theorem at a concrete early candidate. -/
theorem C5_no_early_candidate_queue_witness :
    admitEvents 2 [candEx, offerEx] (fun _ => "B") =
      [Ev.send (SMsg.admitted 2), Ev.createPC, Ev.send SMsg.readyForOffer,
       Ev.err "KeyError"] :=
  C5_no_early_candidate_queue 2 (fun _ => "B") candEx [offerEx] "KeyError" rfl

/-- Claim C6, counterexample: a trickle message in the claimed grammar
(type "ice" with a nested candidate object) is not parsed or applied: the
loop ignores it entirely. -/
theorem C6_counterexample :
    handleMessage iceEx = Except.ok none ∧ loopEvents [iceEx] = [] :=
  ⟨rfl, rfl⟩

/-- Claim C6 as amended: the grammar the server accepts is the flat one:
type "candidate" with a string candidate line and top-level sdpMid and
sdpMLineIndex; such a message is parsed and applied to the peer's handle
with those two fields attached. -/
theorem C6_flat_candidate_accepted (line : String) (c : RTCIceCandidate)
    (mid mli : JVal) (h : parse_ice_candidate line = Except.ok c) :
    handleMessage (jobj [("type", JVal.str "candidate"),
        ("candidate", JVal.str line), ("sdpMid", mid),
        ("sdpMLineIndex", mli)]) =
      Except.ok (some { c with sdpMid := some mid, sdpMLineIndex := some mli }) := by
  simp [handleMessage, pyGet, pyIndex, jobj, JFields.ofList, lookupField, h]

/-- Witness for C6's amended theorem at a concrete parseable line. -/
theorem C6_flat_candidate_accepted_witness :
    handleMessage (jobj [("type", JVal.str "candidate"),
        ("candidate", JVal.str goodLine), ("sdpMid", JVal.str "0"),
        ("sdpMLineIndex", JVal.num 0)]) =
      Except.ok (some { goodCand with sdpMid := some (JVal.str "0"), sdpMLineIndex := some (JVal.num 0) }) :=
  C6_flat_candidate_accepted goodLine goodCand (JVal.str "0") (JVal.num 0) rfl

/-- Claim C7: on every session trace, admitted is sent first, ready_for_offer
third (after only the handle construction), and any answer is sent exactly
at position four, after the offer has been received at position three. -/
theorem C7_message_order (pid : Int) (inbox : List JVal) (ans : JVal → String) :
    ((admitEvents pid inbox ans).get? 0 = some (Ev.send (SMsg.admitted pid))) ∧
    ((admitEvents pid inbox ans).get? 2 = some (Ev.send SMsg.readyForOffer)) ∧
    (∀ i s, (admitEvents pid inbox ans).get? i = some (Ev.send (SMsg.answer s)) →
      (admitEvents pid inbox ans).get? 3 = some Ev.recvOffer ∧ i = 4) := by
  refine ⟨rfl, rfl, ?_⟩
  intro i s h
  cases inbox with
  | nil =>
    exfalso
    have hm := List.get?_mem h
    simp [admitEvents] at hm
  | cons offer rest =>
    cases h1 : pyIndex offer "sdp" with
    | error e =>
      exfalso
      have hm := List.get?_mem h
      simp [admitEvents, h1] at hm
    | ok sdpV =>
      cases h2 : pyIndex offer "type" with
      | error e =>
        exfalso
        have hm := List.get?_mem h
        simp [admitEvents, h1, h2] at hm
      | ok tV =>
        have htr : admitEvents pid (offer :: rest) ans =
            Ev.send (SMsg.admitted pid) :: Ev.createPC ::
            Ev.send SMsg.readyForOffer :: Ev.recvOffer ::
            Ev.send (SMsg.answer (ans sdpV)) :: loopEvents rest := by
          simp [admitEvents, h1, h2]
        rw [htr] at h ⊢
        refine ⟨rfl, ?_⟩
        rcases i with _ | _ | _ | _ | _ | n
        · simp [List.get?] at h
        · simp [List.get?] at h
        · simp [List.get?] at h
        · simp [List.get?] at h
        · rfl
        · exfalso
          have h5 : (loopEvents rest).get? n = some (Ev.send (SMsg.answer s)) := h
          have hm := List.get?_mem h5
          rcases loopEvents_mem rest _ hm with ⟨c, hc⟩ | ⟨s2, hs⟩
          · simp at hc
          · simp at hs

/-- Witness for C7 at a concrete session where an answer is sent. -/
theorem C7_message_order_witness :
    (admitEvents 2 [offerEx] (fun _ => "B")).get? 3 = some Ev.recvOffer ∧
    (4 : Nat) = 4 :=
  (C7_message_order 2 [offerEx] (fun _ => "B")).2.2 4 "B" rfl

/-- Claim C8, counterexample: a candidate message whose candidate line is
malformed is not dropped: the IndexError from the parser escapes, the loop
terminates, and the following well-formed message is never processed. -/
theorem C8_counterexample :
    loopEvents [bananaEx, candEx] = [Ev.err "IndexError"] :=
  rfl

/-- Claim C8 as amended: a message of unknown type is silently ignored and
the loop continues on the rest of the inbox, but a message on which the
per-message handling raises (for instance the IndexError from the parser on
a field-less candidate line, or the KeyError on a missing candidate key) is
not dropped: the exception terminates the loop, and every later message is
never processed. -/
theorem C8_unknown_ignored_malformed_raises (m : JVal) (rest : List JVal)
    (t0 : Option JVal) (h1 : pyGet m "type" = Except.ok t0)
    (h2 : t0 ≠ some (JVal.str "candidate"))
    (mal : JVal) (rest2 : List JVal) (e : String)
    (h3 : handleMessage mal = Except.error e) :
    loopEvents (m :: rest) = loopEvents rest ∧
    loopEvents (mal :: rest2) = [Ev.err e] := by
  constructor
  · have hm : handleMessage m = Except.ok none := by
      unfold handleMessage
      rw [h1]
      simp [h2]
    simp only [loopEvents, hm]
  · simp only [loopEvents, h3]

/-- Witness for C8's amended theorem at a concrete unknown-typed message and
a concrete malformed candidate followed by a well-formed one. -/
theorem C8_unknown_ignored_malformed_raises_witness :
    loopEvents [jobj [("type", JVal.str "ping")], candEx] = loopEvents [candEx] ∧
    loopEvents [bananaEx, offerEx] = [Ev.err "IndexError"] :=
  C8_unknown_ignored_malformed_raises (jobj [("type", JVal.str "ping")])
    [candEx] (some (JVal.str "ping")) rfl (by decide)
    bananaEx [offerEx] "IndexError" rfl

/-- Claim C9: admitting the same target twice has the same observable result
as admitting it once: the second invocation changes no state and starts no
second handshake (so at most one handle is created), and admitting a target
that is not in the waiting set is a no-op. -/
theorem C9_admit_idempotent_noop (s : RoomState) (x : Int)
    (hnd : s.waiting.Nodup) :
    adminAdmitCmd (adminAdmitCmd s x).1 x =
      ((adminAdmitCmd s x).1, ([] : List SMsg)) ∧
    (x ∉ s.waiting → adminAdmitCmd s x = (s, [])) := by
  constructor
  · by_cases hx : x ∈ s.waiting
    · have h1 : adminAdmitCmd s x = admitSync s x := by
        simp [adminAdmitCmd, hx]
      have hnm : x ∉ (admitSync s x).1.waiting := by
        simp only [admitSync, pySetDiscard]
        exact hnd.not_mem_erase
      rw [h1]
      simp [adminAdmitCmd, hnm]
    · have hfix : adminAdmitCmd s x = (s, []) := by
        simp [adminAdmitCmd, hx]
      rw [hfix]
      simp [adminAdmitCmd, hx]
  · intro hx
    simp [adminAdmitCmd, hx]

/-- Witness for C9 at a concrete room and a non-waiting target. -/
theorem C9_admit_idempotent_noop_witness :
    (adminAdmitCmd (adminAdmitCmd { admins := [], waiting := [5], peers := [] } 9).1 9 =
      ((adminAdmitCmd { admins := [], waiting := [5], peers := [] } 9).1,
        ([] : List SMsg))) ∧
    adminAdmitCmd { admins := [], waiting := [5], peers := [] } 9 =
      ({ admins := [], waiting := [5], peers := [] }, []) :=
  ⟨(C9_admit_idempotent_noop { admins := [], waiting := [5], peers := [] } 9
      (by decide)).1,
   (C9_admit_idempotent_noop { admins := [], waiting := [5], peers := [] } 9
      (by decide)).2 (by decide)⟩

/-- Claim C10: an admin joining a room sends, before any of its commands are
processed, a prefix of messages consisting of the new_waiting notifications
for the current waiting set, and that prefix names each waiting peer exactly
once. -/
theorem C10_backlog_notified_on_admin_join (s : RoomState) (aid p : Int)
    (cmds : List JVal) (hnd : s.waiting.Nodup) (hp : p ∈ s.waiting) :
    (∃ rest, (adminBranch s aid cmds).2 =
      s.waiting.map SMsg.newWaiting ++ rest) ∧
    (s.waiting.map SMsg.newWaiting).count (SMsg.newWaiting p) = 1 := by
  constructor
  · exact ⟨(adminLoop (adminJoin s aid).1 cmds).2, rfl⟩
  · have hinj : Function.Injective SMsg.newWaiting := by
      intro a b hab
      injection hab
    rw [List.count_map_of_injective _ _ hinj]
    exact List.count_eq_one_of_mem hnd hp

/-- Witness for C10 at a concrete room with two waiting peers. -/
theorem C10_backlog_notified_on_admin_join_witness :
    (∃ rest, (adminBranch { admins := [], waiting := [3, 4], peers := [] } 1 []).2 =
      [3, 4].map SMsg.newWaiting ++ rest) ∧
    ([3, 4].map SMsg.newWaiting).count (SMsg.newWaiting 3) = 1 :=
  C10_backlog_notified_on_admin_join
    { admins := [], waiting := [3, 4], peers := [] } 1 3 [] (by decide) (by decide)

end KAT
